import Mathlib

/-!
Shallow embedding of the bonfire chat server core, translated from the
Rust sources under src/, together with theorems settling the frozen
claims about its specification.

Machine integers (u64, i64) are modelled as Nat/Int with explicit
range conditions or wrapping where overflow matters.
-/

namespace Bonfire

/-! ### Decimal digits

Models Rust's `u64`/`i64` `Display` (canonical decimal, most significant
digit first) and `from_str` parsing, used by the identifier types in
src/channel.rs, src/user.rs, src/role.rs and by the message codec. -/

/-- Big-endian decimal digits of `n`, with explicit structural fuel so the
kernel can evaluate it.  `digitsGo fuel n` is the digit list whenever
`n < fuel`. -/
def digitsGo : Nat → Nat → List Nat
  | 0, _ => []
  | fuel + 1, n => if n < 10 then [n] else digitsGo fuel (n / 10) ++ [n % 10]

/-- Big-endian decimal digits of `n` (the digits of `Display` for unsigned
integers; `0` prints as `[0]`). -/
def natDigits (n : Nat) : List Nat := digitsGo (n + 1) n

/-- The ASCII character of a decimal digit. -/
def digitChar (d : Nat) : Char := Char.ofNat (48 + d)

/-- Canonical decimal string (as a character list) of an unsigned value:
Rust's `u64::to_string`. -/
def natRepr (n : Nat) : List Char := (natDigits n).map digitChar

/-- Canonical decimal string of a signed value: Rust's `i64::to_string`. -/
def intRepr (t : Int) : List Char :=
  if t < 0 then '-' :: natRepr t.natAbs else natRepr t.natAbs

/-- Numeric value of a big-endian digit list. -/
def valDigits (ds : List Nat) : Nat := ds.foldl (fun a d => a * 10 + d) 0

/-- Numeric value of a big-endian list of ASCII digit characters. -/
def digitsVal (cs : List Char) : Nat := cs.foldl (fun a c => a * 10 + (c.toNat - 48)) 0

/-- Rust's integer `from_str` accepts one optional leading `+` sign. -/
def dropPlus (cs : List Char) : List Char :=
  match cs with
  | '+' :: rest => rest
  | _ => cs

/-- Model of Rust `u64::from_str`: optional `+`, then one or more ASCII
digits, value within `u64` range. -/
def parse_u64 (cs : List Char) : Option Nat :=
  let ds := dropPlus cs
  if ds.isEmpty then none
  else if ds.all Char.isDigit then
    if digitsVal ds < 18446744073709551616 then some (digitsVal ds) else none
  else none

/-- Model of Rust `i64::from_str`: optional sign, then one or more ASCII
digits, value within `i64` range. -/
def parse_i64 (cs : List Char) : Option Int :=
  match cs with
  | '-' :: rest =>
    if rest.isEmpty then none
    else if rest.all Char.isDigit then
      if digitsVal rest ≤ 9223372036854775808 then some (-(digitsVal rest : Int)) else none
    else none
  | _ =>
    let ds := dropPlus cs
    if ds.isEmpty then none
    else if ds.all Char.isDigit then
      if digitsVal ds < 9223372036854775808 then some ((digitsVal ds : Int)) else none
    else none

/-! Digit lemmas. -/

theorem digitsGo_stable (n : Nat) : ∀ f1 f2 : Nat, n < f1 → n < f2 → digitsGo f1 n = digitsGo f2 n := by
  induction n using Nat.strong_induction_on with
  | _ n ih =>
    intro f1 f2 h1 h2
    match f1, f2 with
    | a + 1, b + 1 =>
      simp only [digitsGo]
      by_cases h10 : n < 10
      · simp [h10]
      · simp only [h10, if_false]
        have hd : n / 10 < n := Nat.div_lt_self (by omega) (by omega)
        rw [ih (n / 10) hd a b (by omega) (by omega)]

theorem natDigits_eq (n : Nat) :
    natDigits n = if n < 10 then [n] else natDigits (n / 10) ++ [n % 10] := by
  unfold natDigits
  conv_lhs => rw [digitsGo]
  by_cases h10 : n < 10
  · simp [h10]
  · simp only [h10, if_false]
    have hd : n / 10 < n := Nat.div_lt_self (by omega) (by omega)
    rw [digitsGo_stable (n / 10) n (n / 10 + 1) (by omega) (by omega)]

theorem natDigits_all_lt (n : Nat) : ∀ d ∈ natDigits n, d < 10 := by
  induction n using Nat.strong_induction_on with
  | _ n ih =>
    rw [natDigits_eq]
    by_cases h10 : n < 10
    · simp [h10]
    · simp only [h10, if_false, List.mem_append, List.mem_singleton]
      intro d hd
      rcases hd with hd | hd
      · exact ih (n / 10) (Nat.div_lt_self (by omega) (by omega)) d hd
      · omega

theorem natDigits_ne_nil (n : Nat) : natDigits n ≠ [] := by
  rw [natDigits_eq]
  by_cases h10 : n < 10 <;> simp [h10]

theorem valDigits_natDigits (n : Nat) : valDigits (natDigits n) = n := by
  induction n using Nat.strong_induction_on with
  | _ n ih =>
    rw [natDigits_eq]
    by_cases h10 : n < 10
    · simp [h10, valDigits]
    · simp only [h10, if_false]
      unfold valDigits
      rw [List.foldl_append]
      have := ih (n / 10) (Nat.div_lt_self (by omega) (by omega))
      unfold valDigits at this
      rw [this]
      simp only [List.foldl_cons, List.foldl_nil]
      omega

theorem digitChar_toNat (d : Nat) (h : d < 10) : (digitChar d).toNat = 48 + d := by
  interval_cases d <;> decide

theorem digitChar_isDigit (d : Nat) (h : d < 10) : (digitChar d).isDigit = true := by
  interval_cases d <;> decide

theorem digitChar_ne_plus (d : Nat) (h : d < 10) : digitChar d ≠ '+' := by
  interval_cases d <;> decide

theorem foldl_map_digitChar (ds : List Nat) (hds : ∀ d ∈ ds, d < 10) : ∀ a : Nat,
    List.foldl (fun x c => x * 10 + (c.toNat - 48)) a (ds.map digitChar)
      = List.foldl (fun x d => x * 10 + d) a ds := by
  induction ds with
  | nil => intro a; rfl
  | cons d ds ih =>
    intro a
    simp only [List.map_cons, List.foldl_cons]
    rw [digitChar_toNat d (hds d (by simp))]
    rw [ih (fun x hx => hds x (by simp [hx]))]
    congr 1
    omega

theorem map_digitChar_all_isDigit (ds : List Nat) (hds : ∀ d ∈ ds, d < 10) :
    (ds.map digitChar).all Char.isDigit = true := by
  rw [List.all_eq_true]
  intro c hc
  rw [List.mem_map] at hc
  obtain ⟨d, hd, rfl⟩ := hc
  exact digitChar_isDigit d (hds d hd)

theorem dropPlus_of_ne (c : Char) (cs : List Char) (h : c ≠ '+') :
    dropPlus (c :: cs) = c :: cs := by
  unfold dropPlus
  split
  · rename_i heq
    injection heq with h1 h2
    exact absurd h1 h
  · rfl

theorem parse_u64_natRepr (n : Nat) (h : n < 18446744073709551616) :
    parse_u64 (natRepr n) = some n := by
  obtain ⟨d, ds, hds⟩ : ∃ d ds, natDigits n = d :: ds := by
    cases hnil : natDigits n with
    | nil => exact absurd hnil (natDigits_ne_nil n)
    | cons d ds => exact ⟨d, ds, rfl⟩
  have hall : ∀ x ∈ natDigits n, x < 10 := natDigits_all_lt n
  have hd10 : d < 10 := hall d (by rw [hds]; simp)
  unfold parse_u64 natRepr
  rw [hds]
  simp only [List.map_cons]
  rw [show (digitChar d :: ds.map digitChar) = ((d :: ds).map digitChar) by simp]
  rw [← hds]
  rw [show dropPlus ((natDigits n).map digitChar)
        = (natDigits n).map digitChar by
      rw [hds]; simp only [List.map_cons]
      exact dropPlus_of_ne (digitChar d) (ds.map digitChar) (digitChar_ne_plus d hd10)]
  have hne : ((natDigits n).map digitChar).isEmpty = false := by
    rw [hds]; simp
  rw [hne]
  simp only [Bool.false_eq_true, if_false]
  rw [map_digitChar_all_isDigit (natDigits n) hall]
  simp only [if_true]
  have hval : digitsVal ((natDigits n).map digitChar) = n := by
    unfold digitsVal
    rw [foldl_map_digitChar (natDigits n) hall 0]
    exact valDigits_natDigits n
  rw [hval]
  simp [h]

/-! ### Identifier types

src/channel.rs, src/user.rs, src/role.rs: newtypes over u64 with decimal
`Display` and `FromStr` (via `u64::from_str`). -/

/-- Concrete type for channel IDs (src/channel.rs). -/
structure ChannelId where
  val : Nat
deriving DecidableEq

/-- Concrete type for user IDs (src/user.rs). -/
structure UserId where
  val : Nat
deriving DecidableEq

/-- Concrete type for role IDs (src/role.rs). -/
structure RoleId where
  val : Nat
deriving DecidableEq

/-- `Display` for `ChannelId`: the inner u64 in decimal. -/
def ChannelId.display (c : ChannelId) : List Char := natRepr c.val

/-- `FromStr` for `ChannelId`: `u64::from_str` wrapped in the newtype. -/
def ChannelId.from_str (s : List Char) : Option ChannelId :=
  (parse_u64 s).map ChannelId.mk

/-- `Display` for `UserId`: the inner u64 in decimal. -/
def UserId.display (u : UserId) : List Char := natRepr u.val

/-- `FromStr` for `UserId`: `u64::from_str` wrapped in the newtype. -/
def UserId.from_str (s : List Char) : Option UserId :=
  (parse_u64 s).map UserId.mk

/-- `Display` for `RoleId`: the inner u64 in decimal. -/
def RoleId.display (r : RoleId) : List Char := natRepr r.val

/-- `FromStr` for `RoleId`: `u64::from_str` wrapped in the newtype. -/
def RoleId.from_str (s : List Char) : Option RoleId :=
  (parse_u64 s).map RoleId.mk

/-! ### Message content codec (src/message.rs) -/

/-- `ROLE_BLOCK_PREFIX = "@&"` in src/message.rs. -/
def roleBlockTag : List Char := ['@', '&']

/-- `USER_BLOCK_PREFIX = "@"` in src/message.rs. -/
def userBlockTag : List Char := ['@']

/-- `CHANNEL_BLOCK_PREFIX = "#"` in src/message.rs. -/
def channelBlockTag : List Char := ['#']

/-- `TIMESTAMP_BLOCK_PREFIX = "t:"` in src/message.rs. -/
def timestampBlockTag : List Char := ['t', ':']

/-- A block of message content (src/message.rs `MessageBlock`). -/
inductive MessageBlock where
  | user (id : UserId)
  | channel (id : ChannelId)
  | role (id : RoleId)
  | timestamp (t : Int)
  | text (s : List Char)
deriving DecidableEq

/-- `format_role`: `format!("<{}{}>", ROLE_BLOCK_PREFIX, role_id)`. -/
def format_role (id : RoleId) : List Char :=
  '<' :: (roleBlockTag ++ (natRepr id.val ++ ['>']))

/-- `format_user`: `format!("<{}{}>", USER_BLOCK_PREFIX, user_id)`. -/
def format_user (id : UserId) : List Char :=
  '<' :: (userBlockTag ++ (natRepr id.val ++ ['>']))

/-- `format_channel`: `format!("<{}{}>", CHANNEL_BLOCK_PREFIX, channel_id)`. -/
def format_channel (id : ChannelId) : List Char :=
  '<' :: (channelBlockTag ++ (natRepr id.val ++ ['>']))

/-- `format_timestamp`: `format!("<{}{}>", TIMESTAMP_BLOCK_PREFIX, unix_timestamp)`. -/
def format_timestamp (t : Int) : List Char :=
  '<' :: (timestampBlockTag ++ (intRepr t ++ ['>']))

/-- Model of `str::strip_prefix`: remove a leading pattern, or fail. -/
def stripLead : List Char → List Char → Option (List Char)
  | [], s => some s
  | _ :: _, [] => none
  | p :: ps, c :: cs => if c = p then stripLead ps cs else none

/-- Model of `str::strip_suffix`: remove a trailing pattern, or fail. -/
def stripTrail (suf s : List Char) : Option (List Char) :=
  match stripLead suf.reverse s.reverse with
  | some r => some r.reverse
  | none => none

/-- `decode_message_part` from src/message.rs, translated branch for
branch.  Note: the channel branch of the source (line 99) constructs
`MessageBlock::User(channel_id)`, with the payload inferred as a
`UserId`; the translation reproduces that behaviour. -/
def decode_message_part (original : List Char) : MessageBlock :=
  match stripLead ['<'] original with
  | none => .text original
  | some s1 =>
    match stripTrail ['>'] s1 with
    | none => .text original
    | some content =>
      match stripLead roleBlockTag content with
      | some role =>
        match parse_u64 role with
        | some id => .role ⟨id⟩
        | none => .text original
      | none =>
        match stripLead userBlockTag content with
        | some user =>
          match parse_u64 user with
          | some id => .user ⟨id⟩
          | none => .text original
        | none =>
          match stripLead channelBlockTag content with
          | some ch =>
            match parse_u64 ch with
            | some id => .user ⟨id⟩
            | none => .text original
          | none =>
            match stripLead timestampBlockTag content with
            | some ts =>
              match parse_i64 ts with
              | some t => .timestamp t
              | none => .text original
            | none => .text original

/-- Structural malformedness of one token, mirroring the failure cases of
`decode_message_part`: a missing angle bracket, or a bracketed body whose
highest-priority recognised tag has a payload that fails integer parsing,
or no recognised tag at all. -/
def innerMalformedB (content : List Char) : Bool :=
  match stripLead roleBlockTag content with
  | some r => (parse_u64 r).isNone
  | none =>
    match stripLead userBlockTag content with
    | some u => (parse_u64 u).isNone
    | none =>
      match stripLead channelBlockTag content with
      | some c => (parse_u64 c).isNone
      | none =>
        match stripLead timestampBlockTag content with
        | some t => (parse_i64 t).isNone
        | none => true

/-- A token is malformed when it is missing a bracket or its bracketed
body is malformed in the sense of `innerMalformedB`. -/
def malformedTokenB (s : List Char) : Bool :=
  match stripLead ['<'] s with
  | none => true
  | some s1 =>
    match stripTrail ['>'] s1 with
    | none => true
    | some content => innerMalformedB content

/-! ### Snowflake identifier generation (snowflaked crate, as used by
src/server/mod.rs and src/server/client/mod.rs)

Layout: 64-bit value = timestamp (42 bits) | instance (10 bits) |
sequence (12 bits).  The literals are 2^42, 2^22, 2^12 and 2^10. -/

/-- `Snowflake::from_parts`: compose a 64-bit id from its components. -/
def snowflake_from_parts (ts inst seq : Nat) : Nat :=
  (ts % 4398046511104) * 4194304 + (inst % 1024) * 4096 + seq % 4096

/-- `Snowflake::instance`: extract the 10-bit instance component
(`(id >> 12) & 0x3ff`). -/
def snowflake_instance_part (id : Nat) : Nat := id / 4096 % 1024

/-- State of a `snowflaked::Generator`: the instance tag it was
constructed with (the timestamp/sequence counters are supplied at each
call in this model). -/
structure Generator where
  instance_id : Nat
deriving DecidableEq

/-- `Generator::new(instance)`; the crate requires `instance < 2^10`. -/
def Generator.new (inst : Nat) : Generator := ⟨inst % 1024⟩

/-- `Generator::generate` at a given wall-clock timestamp and sequence
counter value. -/
def Generator.generate_at (g : Generator) (ts seq : Nat) : Nat :=
  snowflake_from_parts ts g.instance_id seq

/-- The channel registry's generator: `snowflaked::Generator::new(0)` in
`Server::new` (src/server/mod.rs line 90). -/
def server_id_generator : Generator := Generator.new 0

/-- The session registry's generator: `snowflaked::Generator::new(0)` in
`ClientService::new` (src/server/client/mod.rs line 100). -/
def client_id_generator : Generator := Generator.new 0

/-! ### Gateway connection negotiation (src/http/gateway.rs) -/

/-- Wire encoding selected at connection time (`Encoding`). -/
inductive Encoding where
  | protobuf
  | json
deriving DecidableEq

/-- Outcome of `ws_handler`: an HTTP 400 response, or the WebSocket
upgrade carrying the negotiated encoding into `handle_socket`. -/
inductive GatewayResponse where
  | badRequest
  | upgrade (e : Encoding)
deriving DecidableEq

/-- Encoding negotiation: the `encoding` query parameter, defaulting to
JSON when absent (src/http/gateway.rs lines 90-93). -/
def negotiated_encoding (encoding : Option Encoding) : Encoding :=
  match encoding with
  | some e => e
  | none => Encoding.json

/-- `ws_handler` (src/http/gateway.rs lines 62-98) restricted to the data
it branches on: the `version` and `encoding` query parameters.  The
source returns `StatusCode::BAD_REQUEST` when the version parameter is
present and equal to `"v0"`, and upgrades otherwise. -/
def ws_handler (version : Option String) (encoding : Option Encoding) : GatewayResponse :=
  match version with
  | some v =>
    if v = "v0" then GatewayResponse.badRequest
    else GatewayResponse.upgrade (negotiated_encoding encoding)
  | none => GatewayResponse.upgrade (negotiated_encoding encoding)

/-! ### Authentication and session creation (src/server/auth.rs,
src/http/gateway.rs `handle_socket`) -/

/-- The identify payload sent by the client (`v0::GatewayIdentify`). -/
structure GatewayIdentify where
  token : String
  client_agent : String
deriving DecidableEq

/-- `AuthService::validate_token` (src/server/auth.rs lines 80-83): the
body is literally `None`. -/
def AuthService.validate_token (_token : String) : Option UserId := none

/-- Where `handle_socket` ends up after the identify step. -/
inductive SocketOutcome where
  | closedNoIdentity
  | closedAuthFailed
  | streaming (user : UserId)
deriving DecidableEq

/-- The identify-then-authenticate portion of `handle_socket`
(src/http/gateway.rs lines 124-168): a failed identify receive returns,
a failed token validation returns, and only on success does the flow
reach `create_session`. -/
def handle_socket_auth (identity? : Option GatewayIdentify) : SocketOutcome :=
  match identity? with
  | none => SocketOutcome.closedNoIdentity
  | some identity =>
    match AuthService.validate_token identity.token with
    | none => SocketOutcome.closedAuthFailed
    | some uid => SocketOutcome.streaming uid

/-- `create_session` is reached exactly in the `streaming` outcome. -/
def session_created : SocketOutcome → Bool
  | SocketOutcome.streaming _ => true
  | _ => false

/-! ### Client sessions and the inbound pump (src/server/client/mod.rs,
src/http/gateway.rs `task_receive`) -/

/-- `ConnectionState` from src/server/client/mod.rs. -/
inductive ConnectionState where
  | connected
  | disconnected
deriving DecidableEq

/-- `Session` from src/server/client/mod.rs: id, connection state, the
identify payload, and the last-contact timestamp in seconds. -/
structure Session where
  id : Nat
  state : ConnectionState
  identity : GatewayIdentify
  last_contact_s : Int
deriving DecidableEq

/-- `Session::contacted`: set the last-contact timestamp to the current
time (`Utc::now().timestamp()`, passed in as `now`). -/
def Session.contacted (s : Session) (now : Int) : Session :=
  { s with last_contact_s := now }

/-- A WebSocket frame (`axum::extract::ws::Message`). -/
inductive WsFrame where
  | text (s : String)
  | binary (b : List Nat)
  | ping (b : List Nat)
  | pong (b : List Nat)
  | close
deriving DecidableEq

/-- One yield of the split socket receiver: a frame or a receive error.
The end of the input list models the receiver returning `None`. -/
inductive RecvItem where
  | ok (f : WsFrame)
  | err
deriving DecidableEq

/-- Whether an item is a ping frame. -/
def RecvItem.isPing : RecvItem → Bool
  | RecvItem.ok (WsFrame.ping _) => true
  | _ => false

/-- `task_receive` (src/http/gateway.rs lines 368-457) over a finite
inbound frame schedule.  `decodeText`/`decodeBinary` abstract the JSON
and Protobuf decoders for `GatewayClientEvent`.  Returns the final
session value and the events forwarded to the session's ingestion
channel, in forwarding order.  A receive error is logged and skipped; a
ping updates the last-contact timestamp and breaks out of the loop; an
undecodable frame is logged and skipped; other frame kinds are
skipped. -/
def task_receive {E : Type} (decodeText : String → Option E)
    (decodeBinary : List Nat → Option E) (now : Int) :
    List RecvItem → Session → Session × List E
  | [], s => (s, [])
  | RecvItem.err :: rest, s => task_receive decodeText decodeBinary now rest s
  | RecvItem.ok (WsFrame.ping _) :: _, s => (s.contacted now, [])
  | RecvItem.ok (WsFrame.text t) :: rest, s =>
    match decodeText t with
    | some e =>
      let p := task_receive decodeText decodeBinary now rest s
      (p.1, e :: p.2)
    | none => task_receive decodeText decodeBinary now rest s
  | RecvItem.ok (WsFrame.binary b) :: rest, s =>
    match decodeBinary b with
    | some e =>
      let p := task_receive decodeText decodeBinary now rest s
      (p.1, e :: p.2)
    | none => task_receive decodeText decodeBinary now rest s
  | RecvItem.ok (WsFrame.pong _) :: rest, s => task_receive decodeText decodeBinary now rest s
  | RecvItem.ok WsFrame.close :: rest, s => task_receive decodeText decodeBinary now rest s

/-! ### Text channels (src/server/channel/text/mod.rs, src/server/mod.rs) -/

/-- A text message received on a channel (`TextChannelMessage`).  The
body field is named `content` in the struct; src/server/channel/text/
worker.rs refers to it as `msg.body`. -/
structure TextChannelMessage where
  author : UserId
  timestamp_ms : Nat
  content : String
deriving DecidableEq

/-- `TextChannelAction`: the inputs to a channel worker. -/
inductive TextChannelAction where
  | messageCreated (msg : TextChannelMessage)
  | messageEdited
deriving DecidableEq

/-- `TextChannelEvent`: events broadcast by a channel worker. -/
inductive TextChannelEvent where
  | newMessage (msg : TextChannelMessage)
  | messageEditedEvent (msg : TextChannelMessage)
deriving DecidableEq

/-- `TextChannelError` from src/server/channel/text/mod.rs (payloads of
the external error types are abstracted away). -/
inductive TextChannelError where
  | labelRequired
  | keyspaceError
  | searchIndexPathError
  | searchIndexDirectoryError
  | searchError
deriving DecidableEq

/-- `CreateChannelError` from src/server/mod.rs. -/
inductive CreateChannelError where
  | poisonedChannelLock
  | textChannelError (e : TextChannelError)
deriving DecidableEq

/-- A text channel handle (`TextChannel`); the runtime resources
(keyspace handle, action queue, event receiver) carried by the Rust
struct are owned by the spawned worker and are not data. -/
structure TextChannel where
  id : ChannelId
  label : String
deriving DecidableEq

/-- Outcomes of the external collaborators used by `TextChannel::new`:
the fjall keyspace open, and the search-index directory/index/writer
setup steps (collapsed to their combined first error). -/
structure ChannelEnv where
  keyspaceOpen : Except TextChannelError Unit
  searchSetup : Except TextChannelError Unit

/-- `TextChannel::new` (src/server/channel/text/mod.rs lines 101-163):
reject an empty label first, then open the keyspace, then set up the
search index, then return the handle. -/
def TextChannel.new (id : ChannelId) (env : ChannelEnv) (label : String) :
    Except TextChannelError TextChannel :=
  if label = "" then Except.error TextChannelError.labelRequired
  else
    match env.keyspaceOpen with
    | Except.error e => Except.error e
    | Except.ok _ =>
      match env.searchSetup with
      | Except.error e => Except.error e
      | Except.ok _ => Except.ok { id := id, label := label }

/-- The channel registry state owned by `Server`: the id generator's
allocation state (abstracted to the next fresh value) and the channel
table. -/
structure ServerRegistry where
  next_id : Nat
  text_channels : List (ChannelId × TextChannel)
deriving DecidableEq

/-- `Server::create_text_channel` (src/server/mod.rs lines 111-132):
generate an id (the generator state advances even on failure), construct
the channel, and only on success insert it into the channel table. -/
def Server.create_text_channel (s : ServerRegistry) (env : ChannelEnv) (label : String) :
    Except CreateChannelError TextChannel × ServerRegistry :=
  let id : ChannelId := ⟨s.next_id⟩
  let s' : ServerRegistry := { s with next_id := s.next_id + 1 }
  match TextChannel.new id env label with
  | Except.error e => (Except.error (CreateChannelError.textChannelError e), s')
  | Except.ok ch => (Except.ok ch, { s' with text_channels := (id, ch) :: s'.text_channels })

/-- `Server::text_channels` (src/server/mod.rs lines 135-142): a snapshot
of all registered channel handles. -/
def Server.list_text_channels (s : ServerRegistry) : List TextChannel :=
  s.text_channels.map Prod.snd

/-! ### The channel worker (src/server/channel/text/worker.rs,
src/server/channel/text/search.rs) -/

/-- `u64::to_be_bytes`: the eight bytes of `t`, most significant first.
The divisors are 2^56, 2^48, 2^40, 2^32, 2^24, 2^16, 2^8. -/
def u64_to_be_bytes (t : Nat) : List Nat :=
  [t / 72057594037927936 % 256, t / 281474976710656 % 256, t / 1099511627776 % 256,
   t / 4294967296 % 256, t / 16777216 % 256, t / 65536 % 256, t / 256 % 256, t % 256]

/-- Lexicographic byte-string comparison (the key order of the ordered
keyspace). -/
def bytesLexLe : List Nat → List Nat → Bool
  | [], _ => true
  | _ :: _, [] => false
  | a :: as, b :: bs => if a < b then true else if b < a then false else bytesLexLe as bs

/-- Rust `as i64` on a u64 value: two's-complement wrap. -/
def i64_of_u64 (n : Nat) : Int :=
  if n < 9223372036854775808 then (n : Int) else (n : Int) - 18446744073709551616

/-- A document added to the channel's search index, with the three fields
of `text_search_schema`: the date field holds the seconds value passed to
`DateTime::from_timestamp_secs`. -/
structure SearchDocument where
  date_secs : Int
  content : String
  author : Nat
deriving DecidableEq

/-- The document the worker builds for a created message
(src/server/channel/text/worker.rs lines 42-48): the date field is
`DateTime::from_timestamp_secs(msg.timestamp_ms as i64)`, the content
field is the body, the author field is the author id. -/
def message_document (msg : TextChannelMessage) : SearchDocument :=
  { date_secs := i64_of_u64 msg.timestamp_ms
    content := msg.content
    author := msg.author.val }

/-- A schema field of `text_search_schema`
(src/server/channel/text/search.rs): its name and option flags. -/
structure SchemaField where
  name : String
  indexed : Bool
  stored : Bool
  fast : Bool
deriving DecidableEq

/-- `text_search_schema`: seconds-precision indexed+stored+fast date
field, indexed+stored tokenized text field, indexed+fast u64 field. -/
def text_search_schema : List SchemaField :=
  [{ name := "timestamp", indexed := true, stored := true, fast := true },
   { name := "content", indexed := true, stored := true, fast := false },
   { name := "author", indexed := true, stored := false, fast := true }]

/-- The state a channel worker owns exclusively: its keyspace entries (in
insertion order), its search index, and the events broadcast so far. -/
structure WorkerState where
  keyspace : List (List Nat × String)
  index : List SearchDocument
  events : List TextChannelEvent
deriving DecidableEq

/-- One iteration of `channel_worker` (src/server/channel/text/worker.rs
lines 33-62) on a dequeued action.  For a created message: insert under
the big-endian timestamp key with the body as value, add the search
document, broadcast `NewMessage`.  The edited variant is `todo!()` in the
source, modelled as `none`. -/
def worker_step (st : WorkerState) : TextChannelAction → Option WorkerState
  | TextChannelAction.messageCreated msg =>
    some { keyspace := st.keyspace ++ [(u64_to_be_bytes msg.timestamp_ms, msg.content)]
           index := st.index ++ [message_document msg]
           events := st.events ++ [TextChannelEvent.newMessage msg] }
  | TextChannelAction.messageEdited => none

/-! ### Helper lemmas -/

theorem bytesLexLe_cons (a b : Nat) (as bs : List Nat) :
    (bytesLexLe (a :: as) (b :: bs) = true) ↔ (a < b ∨ (a = b ∧ bytesLexLe as bs = true)) := by
  simp only [bytesLexLe]
  rcases Nat.lt_trichotomy a b with h | h | h
  · simp [h]
  · subst h
    simp [Nat.lt_irrefl]
  · simp [Nat.lt_asymm h, h, show a ≠ b by omega]

/-- Numeric value of a big-endian base-256 byte list. -/
def bytesVal (ds : List Nat) : Nat := ds.foldl (fun a d => a * 256 + d) 0

theorem foldl_bytesVal (ds : List Nat) : ∀ a : Nat,
    List.foldl (fun x d => x * 256 + d) a ds
      = a * 256 ^ ds.length + List.foldl (fun x d => x * 256 + d) 0 ds := by
  induction ds with
  | nil =>
    intro a
    simp
  | cons d ds ih =>
    intro a
    simp only [List.foldl_cons, List.length_cons]
    rw [ih (a * 256 + d), ih (0 * 256 + d)]
    ring

theorem bytesVal_cons (d : Nat) (ds : List Nat) :
    bytesVal (d :: ds) = d * 256 ^ ds.length + bytesVal ds := by
  unfold bytesVal
  rw [List.foldl_cons, foldl_bytesVal ds (0 * 256 + d)]
  ring_nf

theorem bytesVal_lt (ds : List Nat) (h : ∀ d ∈ ds, d < 256) :
    bytesVal ds < 256 ^ ds.length := by
  induction ds with
  | nil => simp [bytesVal]
  | cons d ds ih =>
    have hd : d < 256 := h d (by simp)
    have hds : bytesVal ds < 256 ^ ds.length := ih (fun x hx => h x (by simp [hx]))
    rw [bytesVal_cons]
    calc d * 256 ^ ds.length + bytesVal ds
        < d * 256 ^ ds.length + 256 ^ ds.length := Nat.add_lt_add_left hds _
      _ = (d + 1) * 256 ^ ds.length := by ring
      _ ≤ 256 * 256 ^ ds.length := mul_le_mul_right' (by omega) _
      _ = 256 ^ (d :: ds).length := by
          rw [List.length_cons, pow_succ]
          ring

theorem mul_add_le_iff (K a b r1 r2 : Nat) (hr1 : r1 < K) (hr2 : r2 < K) :
    a * K + r1 ≤ b * K + r2 ↔ (a < b ∨ (a = b ∧ r1 ≤ r2)) := by
  constructor
  · intro h
    rcases Nat.lt_trichotomy a b with hd | hd | hd
    · exact Or.inl hd
    · refine Or.inr ⟨hd, ?_⟩
      subst hd
      exact Nat.le_of_add_le_add_left h
    · exfalso
      have h1 : (b + 1) * K ≤ a * K := mul_le_mul_right' (by omega) K
      have h2 : b * K + r2 < (b + 1) * K := by
        have he : (b + 1) * K = b * K + K := by ring
        rw [he]
        exact Nat.add_lt_add_left hr2 (b * K)
      have h3 : b * K + r2 < a * K + r1 :=
        lt_of_lt_of_le h2 (le_trans h1 (Nat.le_add_right (a * K) r1))
      exact absurd h (Nat.not_le.mpr h3)
  · intro h
    rcases h with hd | ⟨hd, hr⟩
    · have h1 : (a + 1) * K ≤ b * K := mul_le_mul_right' (by omega) K
      have h2 : a * K + r1 < (a + 1) * K := by
        have he : (a + 1) * K = a * K + K := by ring
        rw [he]
        exact Nat.add_lt_add_left hr1 (a * K)
      exact le_trans (le_of_lt (lt_of_lt_of_le h2 h1)) (Nat.le_add_right (b * K) r2)
    · subst hd
      exact Nat.add_le_add_left hr (a * K)

theorem bytesLexLe_iff_val (ds1 : List Nat) : ∀ ds2 : List Nat,
    ds1.length = ds2.length → (∀ d ∈ ds1, d < 256) → (∀ d ∈ ds2, d < 256) →
    (bytesLexLe ds1 ds2 = true ↔ bytesVal ds1 ≤ bytesVal ds2) := by
  induction ds1 with
  | nil =>
    intro ds2 hlen _ _
    have : ds2 = [] := by
      cases ds2 with
      | nil => rfl
      | cons b bs => simp at hlen
    subst this
    simp [bytesLexLe, bytesVal]
  | cons a as ih =>
    intro ds2 hlen ha hb
    cases ds2 with
    | nil => simp at hlen
    | cons b bs =>
      have hlen' : as.length = bs.length := by simpa using hlen
      have ha' : ∀ d ∈ as, d < 256 := fun x hx => ha x (by simp [hx])
      have hb' : ∀ d ∈ bs, d < 256 := fun x hx => hb x (by simp [hx])
      rw [bytesLexLe_cons, bytesVal_cons, bytesVal_cons, hlen']
      rw [mul_add_le_iff (256 ^ bs.length) a b (bytesVal as) (bytesVal bs)
        (by rw [← hlen']; exact bytesVal_lt as ha') (bytesVal_lt bs hb')]
      rw [ih bs hlen' ha' hb']

theorem u64_to_be_bytes_val (t : Nat) (h : t < 18446744073709551616) :
    bytesVal (u64_to_be_bytes t) = t := by
  simp only [u64_to_be_bytes, bytesVal, List.foldl_cons, List.foldl_nil]
  omega

theorem u64_to_be_bytes_lt (t : Nat) : ∀ d ∈ u64_to_be_bytes t, d < 256 := by
  simp only [u64_to_be_bytes, List.mem_cons, List.not_mem_nil, or_false]
  intro d hd
  rcases hd with h | h | h | h | h | h | h | h <;> omega

/-! ### Claim theorems -/

/-- Claim C1 (code bug): the mention round trip fails for the channel
kind.  Decoding `format_channel(ChannelId(1))` — the token `<#1>` —
yields `MessageBlock::User(1)`, not `MessageBlock::Channel(1)`, because
the channel branch of `decode_message_part` (src/message.rs line 99)
constructs a `User` block. -/
theorem c1_channel_mention_decodes_as_user :
    decode_message_part (format_channel ⟨1⟩) = MessageBlock.user ⟨1⟩
      ∧ decode_message_part (format_channel ⟨1⟩) ≠ MessageBlock.channel ⟨1⟩ := by
  decide

/-- Claim C2 (code bug): the version guard in `ws_handler` is inverted.
A request carrying the supported version `v0` is rejected with HTTP 400
before the upgrade, while a request carrying an unsupported version
(here `v1`) proceeds to the WebSocket upgrade. -/
theorem c2_version_guard_inverted :
    ws_handler (some "v0") none = GatewayResponse.badRequest
      ∧ ws_handler (some "v1") none = GatewayResponse.upgrade Encoding.json := by
  decide

/-- Claim C3 (code bug): the worker builds the search document by passing
`msg.timestamp_ms` directly to `DateTime::from_timestamp_secs`, with no
millisecond-to-second conversion.  For a message with
`timestamp_ms = 1000` the date field holds 1000 seconds, not the
1 second the claim requires; the body and author fields match the
claim. -/
theorem c3_document_timestamp_not_converted :
    (message_document ⟨⟨42⟩, 1000, "hello"⟩).date_secs = 1000
      ∧ (message_document ⟨⟨42⟩, 1000, "hello"⟩).content = "hello"
      ∧ (message_document ⟨⟨42⟩, 1000, "hello"⟩).author = 42
      ∧ (1000 : Nat) / 1000 = 1
      ∧ (message_document ⟨⟨42⟩, 1000, "hello"⟩).date_secs ≠ ((1000 : Nat) / 1000 : Int) := by
  decide

/-- Claim C4 (counterexample): the channel registry's generator and the
session registry's generator are both constructed as
`snowflaked::Generator::new(0)`, so their instance tags are equal and
identifiers generated by the two subsystems can carry equal instance
components. -/
theorem c4_equal_instance_tags_counterexample :
    server_id_generator.instance_id = client_id_generator.instance_id
      ∧ snowflake_instance_part (server_id_generator.generate_at 5 0)
          = snowflake_instance_part (client_id_generator.generate_at 7 3) := by
  decide

/-- Claim C4 (amended): both subsystem generators are constructed with
the same instance tag 0, so the instance components of a channel
identifier and a session identifier are always equal (both are 0),
whatever timestamps and sequence values the generators are at. -/
theorem c4_instance_components_always_equal (ts1 seq1 ts2 seq2 : Nat) :
    snowflake_instance_part (server_id_generator.generate_at ts1 seq1)
      = snowflake_instance_part (client_id_generator.generate_at ts2 seq2) := by
  simp only [server_id_generator, client_id_generator, Generator.new, Generator.generate_at,
    snowflake_from_parts, snowflake_instance_part]
  omega

/-- Claim C5: creating a text channel with an empty label fails with the
label-required error (wrapped in `CreateChannelError::TextChannelError`)
and the registry's channel table — hence any subsequent channel listing —
is unchanged. -/
theorem c5_empty_label_fails_atomically (s : ServerRegistry) (env : ChannelEnv) :
    (Server.create_text_channel s env "").1
        = Except.error (CreateChannelError.textChannelError TextChannelError.labelRequired)
      ∧ ((Server.create_text_channel s env "").2).text_channels = s.text_channels
      ∧ Server.list_text_channels ((Server.create_text_channel s env "").2)
        = Server.list_text_channels s := by
  unfold Server.create_text_channel TextChannel.new
  simp [Server.list_text_channels]

/-- Claim C6: `decode_message_part` is total and returns the original
token unchanged as a `Text` block on every malformed token: a token
missing an angle bracket, a bracketed token with no recognised mention
tag, or one whose payload after the recognised tag fails integer
parsing. -/
theorem c6_malformed_tokens_decode_to_text (s : List Char)
    (h : malformedTokenB s = true) :
    decode_message_part s = MessageBlock.text s := by
  unfold malformedTokenB at h
  unfold decode_message_part
  cases h1 : stripLead ['<'] s with
  | none => simp only [h1]
  | some s1 =>
    simp only [h1] at h ⊢
    cases h2 : stripTrail ['>'] s1 with
    | none => simp only [h2]
    | some content =>
      simp only [h2] at h ⊢
      unfold innerMalformedB at h
      cases h3 : stripLead roleBlockTag content with
      | some r =>
        simp only [h3] at h ⊢
        rw [Option.isNone_iff_eq_none] at h
        simp only [h]
      | none =>
        simp only [h3] at h ⊢
        cases h4 : stripLead userBlockTag content with
        | some u =>
          simp only [h4] at h ⊢
          rw [Option.isNone_iff_eq_none] at h
          simp only [h]
        | none =>
          simp only [h4] at h ⊢
          cases h5 : stripLead channelBlockTag content with
          | some c =>
            simp only [h5] at h ⊢
            rw [Option.isNone_iff_eq_none] at h
            simp only [h]
          | none =>
            simp only [h5] at h ⊢
            cases h6 : stripLead timestampBlockTag content with
            | some t =>
              simp only [h6] at h ⊢
              rw [Option.isNone_iff_eq_none] at h
              simp only [h]
            | none => simp only [h6]

/-- Claim C6 witness: the bracketed token `<x>` has no recognised tag and
decodes to itself as text. -/
theorem c6_witness :
    malformedTokenB ['<', 'x', '>'] = true
      ∧ decode_message_part ['<', 'x', '>'] = MessageBlock.text ['<', 'x', '>'] :=
  ⟨by decide, c6_malformed_tokens_decode_to_text ['<', 'x', '>'] (by decide)⟩

/-- Claim C7: for a created message the worker inserts into the store
under the big-endian bytes of `timestamp_ms` with the body as value (and
builds the document and broadcasts the event), and the big-endian key
encoding is order-preserving: `t1 ≤ t2` iff the byte key of `t1` is
lexicographically at most that of `t2`. -/
theorem c7_created_key_is_be_timestamp_and_order_preserving
    (st : WorkerState) (msg : TextChannelMessage) (t1 t2 : Nat)
    (h1 : t1 < 18446744073709551616) (h2 : t2 < 18446744073709551616) :
    worker_step st (TextChannelAction.messageCreated msg)
        = some { keyspace := st.keyspace ++ [(u64_to_be_bytes msg.timestamp_ms, msg.content)]
                 index := st.index ++ [message_document msg]
                 events := st.events ++ [TextChannelEvent.newMessage msg] }
      ∧ (t1 ≤ t2 ↔ bytesLexLe (u64_to_be_bytes t1) (u64_to_be_bytes t2) = true) := by
  refine ⟨rfl, ?_⟩
  rw [bytesLexLe_iff_val (u64_to_be_bytes t1) (u64_to_be_bytes t2) rfl
    (u64_to_be_bytes_lt t1) (u64_to_be_bytes_lt t2)]
  rw [u64_to_be_bytes_val t1 h1, u64_to_be_bytes_val t2 h2]

/-- Claim C7 witness at concrete state, message and timestamps. -/
theorem c7_witness :
    worker_step ⟨[], [], []⟩ (TextChannelAction.messageCreated ⟨⟨1⟩, 2, "hi"⟩)
        = some { keyspace := [] ++ [(u64_to_be_bytes 2, "hi")]
                 index := [] ++ [message_document ⟨⟨1⟩, 2, "hi"⟩]
                 events := [] ++ [TextChannelEvent.newMessage ⟨⟨1⟩, 2, "hi"⟩] }
      ∧ (0 ≤ 1 ↔ bytesLexLe (u64_to_be_bytes 0) (u64_to_be_bytes 1) = true) :=
  c7_created_key_is_be_timestamp_and_order_preserving ⟨[], [], []⟩ ⟨⟨1⟩, 2, "hi"⟩ 0 1
    (by decide) (by decide)

/-- Claim C8: when the inbound pump reaches a ping frame it updates the
session's last-contact timestamp via `contacted` and stops: the result is
independent of every frame after the ping, and the forwarded events are
exactly those decoded from the frames before the ping — the ping itself
is never forwarded. -/
theorem c8_ping_refreshes_last_contact_and_stops_pump {E : Type}
    (dt : String → Option E) (db : List Nat → Option E) (now : Int)
    (items1 items2 : List RecvItem) (pingData : List Nat) (s : Session)
    (h : ∀ i ∈ items1, i.isPing = false) :
    task_receive dt db now (items1 ++ RecvItem.ok (WsFrame.ping pingData) :: items2) s
      = (s.contacted now, (task_receive dt db now items1 s).2) := by
  induction items1 with
  | nil => simp [task_receive]
  | cons i rest ih =>
    have hi : i.isPing = false := h i (by simp)
    have hrest : ∀ j ∈ rest, j.isPing = false := fun j hj => h j (by simp [hj])
    cases i with
    | err =>
      simp only [List.cons_append, task_receive]
      exact ih hrest
    | ok f =>
      cases f with
      | ping b => simp [RecvItem.isPing] at hi
      | text t =>
        simp only [List.cons_append, task_receive]
        cases hdt : dt t with
        | some e =>
          simp only [hdt, List.append_eq, ih hrest]
        | none =>
          simp only [hdt]
          exact ih hrest
      | binary b =>
        simp only [List.cons_append, task_receive]
        cases hdb : db b with
        | some e =>
          simp only [hdb, List.append_eq, ih hrest]
        | none =>
          simp only [hdb]
          exact ih hrest
      | pong b =>
        simp only [List.cons_append, task_receive]
        exact ih hrest
      | close =>
        simp only [List.cons_append, task_receive]
        exact ih hrest

/-- Claim C8 witness: one decodable text frame before the ping, one close
frame after it. -/
theorem c8_witness :
    task_receive (fun _ => some (1 : Nat)) (fun _ => none) 5
        ([RecvItem.ok (WsFrame.text "a")]
          ++ RecvItem.ok (WsFrame.ping []) :: [RecvItem.ok WsFrame.close])
        ⟨0, ConnectionState.connected, ⟨"tok", "ua"⟩, 0⟩
      = (Session.contacted ⟨0, ConnectionState.connected, ⟨"tok", "ua"⟩, 0⟩ 5,
         (task_receive (fun _ => some (1 : Nat)) (fun _ => none) 5
            [RecvItem.ok (WsFrame.text "a")]
            ⟨0, ConnectionState.connected, ⟨"tok", "ua"⟩, 0⟩).2) :=
  c8_ping_refreshes_last_contact_and_stops_pump (fun _ => some (1 : Nat)) (fun _ => none) 5
    [RecvItem.ok (WsFrame.text "a")] [RecvItem.ok WsFrame.close] []
    ⟨0, ConnectionState.connected, ⟨"tok", "ua"⟩, 0⟩ (by decide)

/-- Claim C9: `ChannelId` and `UserId` round-trip through their canonical
decimal string representation: parsing the displayed string yields the
original identifier, for every 64-bit value. -/
theorem c9_id_decimal_round_trip (c : ChannelId) (u : UserId)
    (hc : c.val < 18446744073709551616) (hu : u.val < 18446744073709551616) :
    ChannelId.from_str (ChannelId.display c) = some c
      ∧ UserId.from_str (UserId.display u) = some u := by
  constructor
  · unfold ChannelId.from_str ChannelId.display
    rw [parse_u64_natRepr c.val hc]
    rfl
  · unfold UserId.from_str UserId.display
    rw [parse_u64_natRepr u.val hu]
    rfl

/-- Claim C9 witness at concrete identifiers. -/
theorem c9_witness :
    ChannelId.from_str (ChannelId.display ⟨5⟩) = some ⟨5⟩
      ∧ UserId.from_str (UserId.display ⟨7⟩) = some ⟨7⟩ :=
  c9_id_decimal_round_trip ⟨5⟩ ⟨7⟩ (by decide) (by decide)

/-- Claim C10: `AuthService::validate_token` returns `None` for every
token, so the gateway connection path never reaches `create_session`:
the identify step is always followed by an authentication failure. -/
theorem c10_validate_token_always_none (t : String) (id? : Option GatewayIdentify) :
    AuthService.validate_token t = none
      ∧ session_created (handle_socket_auth id?) = false := by
  refine ⟨rfl, ?_⟩
  cases id? <;> rfl

end Bonfire
